import Mathlib

/-!
Verification of the CodeAlive skills repository (a thin Python CLI client for
the CodeAlive code-intelligence REST API) against its natural-language
specification.

The relevant Python modules are shallowly embedded here:

* `skills/codealive-context-engine/scripts/lib/api_client.py`
  (`CodeAliveClient`: credential resolution, request construction, HTTP error
  mapping, the `search` and `chat` operations);
* `codealive-context-engine/scripts/search.py`
  (`format_search_results` and the CLI argument handling of `main`);
* `codealive-context-engine/scripts/explore.py`
  (the per-mode search calls of the five explore workflows).

Conventions of the embedding:

* JSON values are modelled by the `Json` inductive below.  Numeric leaves are
  modelled as integers: the fields the client inspects are identifiers, line
  numbers and scores, and none of the claims depends on fractional values.
* Python exceptions are modelled with `Except String`; the error string names
  the Python exception (and its message where a claim depends on it).
* Python truthiness, the `or` idiom, `dict.get`, `==`/`!=` and iteration are
  modelled by dedicated helpers (`truthy`, `pyOr`, `dictGet`, `jsonEq`,
  `pyIter`), each following CPython semantics on the embedded value space.
* Network transport is abstracted: request-building functions return the
  `HttpRequest` value that would be sent, and response-handling functions take
  the parsed response JSON as an argument.  A client-side precondition failure
  is an `Except.error` produced before any `HttpRequest` value exists.
-/

namespace CodeAlive

/-- JSON values as exchanged with the CodeAlive API (and, more generally,
Python values of the dynamically-typed client code: `None`, booleans,
integers, strings, lists and string-keyed dicts).  Dicts are association
lists in insertion order, mirroring Python 3 dict ordering; keys are unique
in every value produced by JSON parsing or by the embedded code. -/
inductive Json where
  | null : Json
  | bool : Bool → Json
  | num  : Int → Json
  | str  : String → Json
  | arr  : List Json → Json
  | obj  : List (String × Json) → Json

/-- Python truthiness (`bool(x)`): `None`, `False`, `0`, `""` and empty
containers are falsy, everything else is truthy. -/
def truthy : Json → Bool
  | .null   => false
  | .bool b => b
  | .num n  => n != 0
  | .str s  => s != ""
  | .arr l  => !l.isEmpty
  | .obj l  => !l.isEmpty

/-- Python `a or b`: `a` if truthy, otherwise `b`. -/
def pyOr (a b : Json) : Json := if truthy a then a else b

/-- First value bound to key `k` in an association list (Python dict lookup;
keys are unique in dicts, so "first" is exact). -/
def lookup (kvs : List (String × Json)) (k : String) : Option Json :=
  (kvs.find? (fun p => p.1 == k)).map (fun p => p.2)

/-- Python `d.get(k, default)` on a dict. -/
def dictGet (kvs : List (String × Json)) (k : String) (d : Json) : Json :=
  match lookup kvs k with
  | some v => v
  | none   => d

/-- Python `d[k] = v`: replace the value in place if the key exists
(insertion order is preserved), else append the new binding. -/
def setKey (kvs : List (String × Json)) (k : String) (v : Json) : List (String × Json) :=
  if kvs.any (fun p => p.1 == k) then
    kvs.map (fun p => if p.1 == k then (k, v) else p)
  else
    kvs ++ [(k, v)]

/-- Python `value.get(k, default)` on an arbitrary value: only dicts have
`.get`; anything else raises `AttributeError`. -/
def pyGet (v : Json) (k : String) (d : Json) : Except String Json :=
  match v with
  | .obj kvs => .ok (dictGet kvs k d)
  | _        => .error "AttributeError"

mutual
/-- Python `==` on the embedded values: numbers and booleans compare across
types (`True == 1`), lists compare elementwise, dicts compare as finite maps
(length check plus one-sided lookup, as in CPython's `dict_equal`; dict keys
are unique), and values of unrelated types are unequal. -/
def jsonEq : Json → Json → Bool
  | .null, .null => true
  | .bool a, .bool b => a == b
  | .bool a, .num n => (if a then (1 : Int) else 0) == n
  | .num n, .bool a => n == (if a then (1 : Int) else 0)
  | .num a, .num b => a == b
  | .str a, .str b => a == b
  | .arr a, .arr b => jsonEqList a b
  | .obj a, .obj b => Nat.beq a.length b.length && jsonSub a b
  | _, _ => false

/-- Elementwise `==` of two Python lists (false when lengths differ). -/
def jsonEqList : List Json → List Json → Bool
  | [], [] => true
  | x :: xs, y :: ys => jsonEq x y && jsonEqList xs ys
  | _, _ => false

/-- Every binding of the first dict is present with an `==` value in the
second dict. -/
def jsonSub : List (String × Json) → List (String × Json) → Bool
  | [], _ => true
  | (k, v) :: rest, b =>
      (match b.find? (fun p => p.1 == k) with
       | some p => jsonEq v p.2
       | none => false) && jsonSub rest b
end

/-- Python `!=`. -/
def jsonNe (a b : Json) : Bool := !(jsonEq a b)

mutual
/-- Python `repr` of the embedded values (used by `str`/f-strings for
containers).  String quoting is simplified to plain single quotes; no claim
evaluates `repr` on strings containing quotes. -/
def pyRepr : Json → String
  | .null => "None"
  | .bool b => if b then "True" else "False"
  | .num n => toString n
  | .str s => "'" ++ s ++ "'"
  | .arr l => "[" ++ String.intercalate ", " (pyReprList l) ++ "]"
  | .obj kvs => "\x7b" ++ String.intercalate ", " (pyReprObj kvs) ++ "\x7d"

/-- Python `repr` of each element of a list. -/
def pyReprList : List Json → List String
  | [] => []
  | x :: xs => pyRepr x :: pyReprList xs

/-- Python `repr` of each binding of a dict. -/
def pyReprObj : List (String × Json) → List String
  | [] => []
  | (k, v) :: xs => ("'" ++ k ++ "': " ++ pyRepr v) :: pyReprObj xs
end

/-- Python `str(x)` as used by f-string interpolation. -/
def pyStr : Json → String
  | .str s => s
  | v => pyRepr v

/-- Python iteration over a value (`for x in v`): lists yield their elements,
strings their characters, dicts their keys; other values raise `TypeError`. -/
def pyIter : Json → Except String (List Json)
  | .arr l => .ok l
  | .str s => .ok (s.data.map (fun c => Json.str c.toString))
  | .obj kvs => .ok (kvs.map (fun p => Json.str p.1))
  | _ => .error "TypeError"

/-- Whether `needle` is a leading run of `hay` (on character lists). -/
def startsWithL : List Char → List Char → Bool
  | [], _ => true
  | _ :: _, [] => false
  | p :: ps, c :: cs => p == c && startsWithL ps cs

/-- The whitespace characters removed by Python `str.strip()`. -/
def pyIsSpace (c : Char) : Bool :=
  c == ' ' || c == '\t' || c == '\n' || c == '\r' || c == '\x0b' || c == '\x0c'

/-- Python `s.strip()`. -/
def pyStrip (s : String) : String :=
  String.mk (((s.data.dropWhile pyIsSpace).reverse.dropWhile pyIsSpace).reverse)

/-- Worker for `pySplit`, structurally recursive on a fuel argument that
`pySplit` sets to the length of the character list; each step consumes one
unit of fuel and at least one character, so for a non-empty separator the
zero-fuel arm is never reached on the initial fuel. -/
def pySplitGo (sep : List Char) : Nat → List Char → List Char → List String
  | _, [], acc => [String.mk acc.reverse]
  | 0, l, acc => [String.mk (acc.reverse ++ l)]
  | fuel + 1, c :: cs, acc =>
      if startsWithL sep (c :: cs) then
        String.mk acc.reverse :: pySplitGo sep fuel (cs.drop (sep.length - 1)) []
      else
        pySplitGo sep fuel cs (c :: acc)

/-- Python `s.split(sep)` for a non-empty separator: split at the leftmost,
non-overlapping occurrences. -/
def pySplit (sep : String) (s : String) : List String :=
  pySplitGo sep.data s.data.length s.data []

/-- Python `needle in hay` on strings (substring test, for a non-empty
needle): the needle occurs iff splitting on it yields at least two parts. -/
def pyInStr (needle hay : String) : Bool := (pySplit needle hay).length ≥ 2

/-! The HTTP client core (`api_client.py`, `CodeAliveClient._make_request`).

A request is modelled by the data `_make_request` assembles before calling
`urllib.request.urlopen`: method, endpoint path, the URL-encoded query pairs,
and the JSON body.  Percent-encoding of the pairs and the fixed
`Authorization`/`Content-Type` headers are below the granularity of the
claims and are not modelled. -/

/-- The outgoing HTTP request assembled by `CodeAliveClient._make_request`. -/
structure HttpRequest where
  method : String
  endpoint : String
  query : List (String × String)
  body : Option (List (String × Json))

/-- Model of `urllib.parse.urlencode(params, doseq=True)` at pair granularity: a
string value gives one pair, a list gives one pair per element (so an empty
list contributes no pair at all), a dict iterates its keys, and any other
scalar is rendered with `str`. -/
def urlencodeDoseq (params : List (String × Json)) : List (String × String) :=
  params.flatMap (fun p =>
    match p.2 with
    | .str s => [(p.1, s)]
    | .arr l => l.map (fun v => (p.1, pyStr v))
    | .obj kvs => kvs.map (fun b => (p.1, b.1))
    | v => [(p.1, pyStr v)])

/-- Python `str(b).lower()` on a boolean. -/
def pyBoolStrLower (b : Bool) : String := if b then "true" else "false"

/-! The search operation (`CodeAliveClient.search`). -/

/-- The method `CodeAliveClient.search`: builds the `GET /api/search` request.  The
method performs no client-side validation whatsoever — in particular it does
not check that `data_sources` is non-empty — and always hands the request to
`_make_request`. -/
def searchRequest (query : String) (data_sources : List String)
    (mode : String) (include_content : Bool) : HttpRequest :=
  { method := "GET"
    endpoint := "/api/search"
    query := urlencodeDoseq
      [("Query", Json.str query),
       ("Mode", Json.str mode),
       ("IncludeContent", Json.str (pyBoolStrLower include_content)),
       ("Names", Json.arr (data_sources.map Json.str))]
    body := none }

/-! The chat operation (`CodeAliveClient.chat`). -/

/-- Truthiness of an `Optional[str]` Python argument (`None` and `""` are
falsy). -/
def pyTruthyStrOpt : Option String → Bool
  | none => false
  | some s => s != ""

/-- Truthiness of an `Optional[List[str]]` Python argument (`None` and `[]`
are falsy). -/
def pyTruthyListOpt : Option (List String) → Bool
  | none => false
  | some l => !l.isEmpty

/-- The method `CodeAliveClient.chat`, request half: builds the `POST
/api/chat/completions` body.  The body starts as `{messages, stream: true}`;
a truthy `conversation_id` adds `conversationId`, otherwise a truthy
`data_sources` adds `names`, otherwise `ValueError` is raised before any
request exists; finally `stream` is overwritten to `false` in place. -/
def chatRequest (question : String) (data_sources : Option (List String))
    (conversation_id : Option String) : Except String HttpRequest := do
  let body : List (String × Json) :=
    [("messages", Json.arr [Json.obj [("role", Json.str "user"),
                                      ("content", Json.str question)]]),
     ("stream", Json.bool true)]
  let body ←
    if pyTruthyStrOpt conversation_id then
      .ok (setKey body "conversationId" (Json.str (conversation_id.getD "")))
    else if pyTruthyListOpt data_sources then
      .ok (setKey body "names" (Json.arr ((data_sources.getD []).map Json.str)))
    else
      .error "ValueError: Either conversation_id or data_sources must be provided"
  .ok { method := "POST"
        endpoint := "/api/chat/completions"
        query := []
        body := some (setKey body "stream" (Json.bool false)) }

/-- The dict `CodeAliveClient.chat` returns. -/
structure ChatResult where
  answer : Json
  conversation_id : Json
  full_response : Json

/-- Python `value[0]`: lists and strings are indexable (empty ones raise
`IndexError`), dicts raise `KeyError` for the integer key, other values raise
`TypeError`. -/
def pyIndexZero : Json → Except String Json
  | .arr [] => .error "IndexError"
  | .arr (x :: _) => .ok x
  | .str s =>
      match s.data with
      | [] => .error "IndexError"
      | c :: _ => .ok (Json.str c.toString)
  | .obj _ => .error "KeyError"
  | _ => .error "TypeError"

/-- The method `CodeAliveClient.chat`, response half: extracts
`response.get("choices", [{}])[0].get("message", {}).get("content", "")` and
`response.get("id")` from the parsed response. -/
def chatExtract (response : Json) : Except String ChatResult := do
  let choices ← pyGet response "choices" (Json.arr [Json.obj []])
  let first ← pyIndexZero choices
  let message ← pyGet first "message" (Json.obj [])
  let answer ← pyGet message "content" (Json.str "")
  let cid ← pyGet response "id" Json.null
  .ok { answer := answer, conversation_id := cid, full_response := response }

/-- The method `CodeAliveClient.chat` end to end, with the network abstracted as a
`transport` function from the outgoing request to the parsed response JSON.
When the precondition check raises, `transport` is never applied — no
request is issued. -/
def chat (question : String) (data_sources : Option (List String))
    (conversation_id : Option String) (transport : HttpRequest → Json) :
    Except String ChatResult := do
  let r ← chatRequest question data_sources conversation_id
  chatExtract (transport r)

/-! Credential resolution (`CodeAliveClient.__init__` and
`CodeAliveClient._get_key_from_keychain`) -/

/-- Outcomes of `platform.system()` distinguished by `_get_key_from_keychain`. -/
inductive Platform where
  | darwin | linux | windows | other

/-- Outcome of the `subprocess.run` call against the OS credential tool:
either it completed with a return code and captured stdout, or it raised
(`FileNotFoundError` when the tool is absent, `TimeoutExpired`, …). -/
inductive SubprocResult where
  | completed (returncode : Int) (stdout : String)
  | raised

/-- Environment of one `_get_key_from_keychain` call: the detected platform,
the subprocess outcome used on macOS/Linux, and the
`_read_windows_credential` outcome used on Windows (`Except.error` models a
raised exception, `Except.ok` its `Optional[str]` return value). -/
structure KeychainWorld where
  platform : Platform
  subprocess : SubprocResult
  windowsCred : Except Unit (Option String)

/-- The static method `CodeAliveClient._get_key_from_keychain`: per-platform lookup in the OS
credential store.  Every exception is swallowed by the enclosing
`try/except` and reported as `None` ("not found"); on macOS/Linux the key is
the stripped stdout, accepted only when the tool exited 0 with non-blank
output. -/
def getKeyFromKeychain (w : KeychainWorld) : Option String :=
  match w.platform with
  | .darwin =>
      match w.subprocess with
      | .completed rc out =>
          if rc == 0 && pyStrip out != "" then some (pyStrip out) else none
      | .raised => none
  | .linux =>
      match w.subprocess with
      | .completed rc out =>
          if rc == 0 && pyStrip out != "" then some (pyStrip out) else none
      | .raised => none
  | .windows =>
      match w.windowsCred with
      | .ok v => v
      | .error _ => none
  | .other => none

/-- Python `a or b` on `Optional[str]` values. -/
def pyOrOptStr (a b : Option String) : Option String :=
  match a with
  | some s => if s != "" then some s else b
  | none => b

/-- The `ValueError` message raised by `CodeAliveClient.__init__` when no
credential source yields a key; `setupPath` is the dynamically computed path
of `setup.py`. -/
def credNotFoundMsg (setupPath : String) : String :=
  "CodeAlive API key not configured.\n\nRun the interactive setup:\n  python "
    ++ setupPath
    ++ "\n\nOr set the key manually:\n  export CODEALIVE_API_KEY=\"your_key\"\n\nGet your API key at: https://app.codealive.ai/settings/api-keys"

/-- Credential resolution in `CodeAliveClient.__init__`:
`api_key or os.getenv("CODEALIVE_API_KEY") or self._get_key_from_keychain()`,
then `ValueError` when the resolved value is falsy.  `envKey` is the value of
the `CODEALIVE_API_KEY` environment variable (`none` when unset).  The
resolver performs no network call — it is a pure lookup over its three
sources. -/
def resolveApiKey (setupPath : String) (api_key : Option String)
    (envKey : Option String) (w : KeychainWorld) : Except String String :=
  let key := pyOrOptStr api_key (pyOrOptStr envKey (getKeyFromKeychain w))
  match key with
  | some s => if s != "" then .ok s else .error ("ValueError: " ++ credNotFoundMsg setupPath)
  | none => .error ("ValueError: " ++ credNotFoundMsg setupPath)

/-- Spec-side definition for the credential-resolution claim: the first
non-empty value in the ordered list of sources, with no merging. -/
def firstNonEmpty : List (Option String) → Option String
  | [] => none
  | none :: rest => firstNonEmpty rest
  | some s :: rest => if s = "" then firstNonEmpty rest else some s

/-! HTTP error mapping (`CodeAliveClient._make_request`, `HTTPError`
branch)

`httpErrorMessage base_url code raw parsed` models the `except HTTPError`
handler: `raw` is the decoded error body, `parsed` the outcome of
`json.loads(raw)` (`none` for `JSONDecodeError`).  Every branch of the
handler raises: `.ok m` means the handler raised its deliberate `Exception`
with message `m`, while `.error e` means a *different* exception `e` escaped
the handler (the `except json.JSONDecodeError` clause does not catch
`AttributeError` from `.get` on a non-dict, nor from `.strip()` on a
non-string). -/

/-- The `error_msg` computation:
`error_data.get("message") or error_data.get("error") or error_body`, with
the bare `error_body` kept when parsing failed. -/
def extractErrorMsg (raw : String) (parsed : Option Json) : Except String Json :=
  match parsed with
  | none => .ok (Json.str raw)
  | some (.obj kvs) =>
      .ok (pyOr (dictGet kvs "message" Json.null)
            (pyOr (dictGet kvs "error" Json.null) (Json.str raw)))
  | some _ => .error "AttributeError"

/-- The status-code dispatch of the `HTTPError` handler. -/
def httpErrorMessage (base_url : String) (code : Int) (raw : String)
    (parsed : Option Json) : Except String String := do
  let error_msg ← extractErrorMsg raw parsed
  if code == 401 then do
    let stripped ←
      match error_msg with
      | .str s => .ok (pyStrip s)
      | _ => .error "AttributeError"
    let detail := if stripped != "" then ": " ++ pyStr error_msg else ""
    .ok ("Authentication failed (401)" ++ detail
      ++ ". Your API key may be invalid or expired. Get a new key at: "
      ++ base_url ++ "/settings/api-keys")
  else if code == 403 then
    .ok ("Access denied (403): " ++ pyStr error_msg
      ++ ". Your API key may lack permissions for this operation.")
  else if code == 404 then
    .ok ("Not found (404): " ++ pyStr error_msg)
  else if code == 429 then
    .ok "Rate limit exceeded (429). Please wait before retrying."
  else if code ≥ 500 then
    .ok ("Server error (" ++ toString code ++ "): " ++ pyStr error_msg
      ++ ". The CodeAlive service may be temporarily unavailable.")
  else
    .ok ("API request failed (" ++ toString code ++ "): " ++ pyStr error_msg)

/-! The search-result formatter (`search.py`, `format_search_results`).

The formatter is a pure function of the parsed response JSON.  It is embedded
over arbitrary `Json` input; places where the Python code would raise on
ill-typed values (`.get` on a non-dict, `>` between a string and an integer,
`"::" in` a non-string, `{score:.2f}` on a non-number, `.strip()` on a
non-string, indexing or iterating a non-sequence) are `Except.error` with the
exception's name. -/

/-- Python `x > 0` as used on an extracted line number: integers compare
numerically, booleans are integers (`True > 0` is `True`), anything else
raises `TypeError`. -/
def jsonGtZero : Json → Except String Bool
  | .num n => .ok (decide (n > 0))
  | .bool b => .ok b
  | _ => .error "TypeError"

/-- Python `f"{n:.2f}"` on the integer-valued scores of the embedding
(booleans being integers). -/
def formatFixed2 : Json → Except String String
  | .num n => .ok (toString n ++ ".00")
  | .bool b => .ok (if b then "1.00" else "0.00")
  | .str _ => .error "ValueError"
  | _ => .error "TypeError"

/-- The body of the `for idx, result in enumerate(items, 1)` loop of
`format_search_results`: the list of output lines appended for one result. -/
def renderResult (idx : Nat) (result : Json) : Except String (List String) := do
  match result with
  | .obj kvs =>
    let location := dictGet kvs "location" (Json.obj [])
    match location with
    | .obj lkvs =>
      let file_path :=
        pyOr (dictGet lkvs "path" Json.null)
          (pyOr (dictGet kvs "filePath" Json.null)
            (pyOr (dictGet kvs "file" Json.null) (dictGet kvs "path" Json.null)))
      let range_info := dictGet lkvs "range" (Json.obj [])
      match range_info with
      | .obj rkvs =>
        let startVal := dictGet rkvs "start" (Json.obj [])
        match startVal with
        | .obj skvs =>
          let start_line :=
            pyOr (dictGet skvs "line" Json.null)
              (pyOr (dictGet kvs "startLine" Json.null) (dictGet kvs "lineNumber" Json.null))
          let endVal := dictGet rkvs "end" (Json.obj [])
          match endVal with
          | .obj ekvs =>
            let end_line :=
              pyOr (dictGet ekvs "line" Json.null) (dictGet kvs "endLine" Json.null)
            let ds := dictGet kvs "dataSource" (Json.obj [])
            let source_name :=
              match ds with
              | .obj dkvs => dictGet dkvs "name" Json.null
              | _ => ds
            let kind := dictGet kvs "kind" (Json.str "")
            let identifier := dictGet kvs "identifier" (Json.str "")
            -- if not file_path and "::" in identifier: take parts[1] as the path
            let file_path ←
              if !truthy file_path then
                match identifier with
                | .str s =>
                    if pyInStr "::" s then
                      let parts := pySplit "::" s
                      if parts.length ≥ 2 then
                        .ok (Json.str ((parts.get? 1).getD ""))
                      else
                        .ok file_path
                    else
                      .ok file_path
                | _ => .error "TypeError"
              else
                .ok file_path
            let score := pyOr (dictGet kvs "score" Json.null) (dictGet kvs "relevance" Json.null)
            let snippet :=
              pyOr (dictGet kvs "snippet" Json.null)
                (pyOr (dictGet kvs "content" Json.null)
                  (pyOr (dictGet kvs "code" Json.null) (Json.str "")))
            -- loc_str = file_path or ""; then maybe file:line(-line) formatting
            let loc_str := pyOr file_path (Json.str "")
            let loc_str ←
              if truthy loc_str && truthy start_line then do
                let gt ← jsonGtZero start_line
                if gt then do
                  let inner ←
                    if truthy end_line then
                      if jsonNe end_line start_line then jsonGtZero end_line
                      else .ok false
                    else
                      .ok false
                  if inner then
                    .ok (Json.str (pyStr file_path ++ ":" ++ pyStr start_line
                      ++ "-" ++ pyStr end_line))
                  else
                    .ok (Json.str (pyStr file_path ++ ":" ++ pyStr start_line))
                else
                  .ok loc_str
              else
                .ok loc_str
            let headLine := "\n--- Result #" ++ toString idx ++ " [" ++ pyStr kind ++ "] ---"
            let fileLines := if truthy loc_str then ["  File: " ++ pyStr loc_str] else []
            let symLines ←
              if truthy identifier && jsonNe kind (Json.str "Chunk") then
                match identifier with
                | .str s =>
                    let short_id : Json :=
                      if pyInStr "::" s then
                        Json.str (((pySplit "::" s).getLast?).getD "")
                      else
                        identifier
                    if jsonNe short_id file_path then
                      .ok ["  Symbol: " ++ pyStr short_id]
                    else
                      .ok ([] : List String)
                | _ => .error "TypeError"
              else
                .ok ([] : List String)
            let srcLines := if truthy source_name then ["  Source: " ++ pyStr source_name] else []
            let scoreLines ←
              match score with
              | .null => .ok ([] : List String)
              | sc => do
                  let f ← formatFixed2 sc
                  .ok ["  Relevance: " ++ f]
            let snipLines ←
              match snippet with
              | .str s =>
                  .ok (if pyStrip s != "" then ["\n```\n" ++ pyStrip s ++ "\n```"] else [])
              | _ => .error "AttributeError"
            .ok ([headLine] ++ fileLines ++ symLines ++ srcLines ++ scoreLines ++ snipLines)
          | _ => .error "AttributeError"
        | _ => .error "AttributeError"
      | _ => .error "AttributeError"
    | _ => .error "AttributeError"
  | _ => .error "AttributeError"

/-- The whole `enumerate(items, 1)` loop, starting at index `idx`. -/
def renderItems (idx : Nat) : List Json → Except String (List String)
  | [] => .ok []
  | r :: rest => do
      let head ← renderResult idx r
      let tail ← renderItems (idx + 1) rest
      .ok (head ++ tail)

/-- The three-way shape dispatch of `format_search_results` (lines 42-47 of
`search.py`): a bare list is used as is, a dict with a `results` key yields
that key's value (an indexing `TypeError` for a string containing
"results"), and anything else becomes the one-element list `[results]`. -/
def extractItems (results : Json) : Except String Json :=
  match results with
  | .arr _ => .ok results
  | .obj kvs =>
      if kvs.any (fun p => p.1 == "results") then
        .ok (dictGet kvs "results" Json.null)
      else
        .ok (Json.arr [results])
  | .str s =>
      if pyInStr "results" s then .error "TypeError"
      else .ok (Json.arr [results])
  | _ => .error "TypeError"

/-- The function `format_search_results(results, include_content)` from `search.py`: the
falsy-input and empty-items early returns, the shape dispatch, the
per-result loop, and the final count line.  The `include_content` parameter
is accepted and unused, exactly as in the source. -/
def format_search_results (results : Json) (include_content : Bool) :
    Except String String :=
  if !truthy results then .ok "No results found."
  else do
    let items ← extractItems results
    if !truthy items then .ok "No results found."
    else do
      let itemList ← pyIter items
      let lines ← renderItems 1 itemList
      .ok (String.intercalate "\n"
        (lines ++ ["\n(" ++ toString itemList.length ++ " results)"]))

/-! The search CLI (`search.py`, `main`).

`main` parses `sys.argv`, rejects a missing or empty data-source list with a
usage error and exit code 1, and only then constructs the client and calls
`CodeAliveClient.search`.  `searchCliPlan argv` (with `argv = sys.argv[1:]`)
returns the request that call would issue, or the CLI outcome that precedes
any request. -/

/-- Outcome of the search CLI before/at the point of the network call. -/
inductive CliOutcome where
  | request (r : HttpRequest)
  | usage (msg : String)
  | helpText

/-- The argument-parsing `while` loop of `search.py main`: `--mode` consumes
a following value when one exists (a trailing `--mode` is treated as a data
source), `--include-content` sets the flag, `--help` prints the module doc
and exits 0, and anything else is a data source. -/
def searchArgLoop (args : List String) (mode : String) (ic : Bool)
    (ds : List String) : Except Unit (String × Bool × List String) :=
  match args with
  | [] => .ok (mode, ic, ds)
  | arg :: rest =>
      if arg == "--mode" then
        match rest with
        | m :: rest2 => searchArgLoop rest2 m ic ds
        | [] => .ok (mode, ic, ds ++ [arg])
      else if arg == "--include-content" then
        searchArgLoop rest mode true ds
      else if arg == "--help" then
        .error ()
      else
        searchArgLoop rest mode ic (ds ++ [arg])

/-- The function `main` of `search.py` up to the network call (`argv = sys.argv[1:]`).
Credential resolution by `CodeAliveClient()` happens between the data-source
check and the search call and is abstracted here. -/
def searchCliPlan (argv : List String) : CliOutcome :=
  if argv.length < 2 then
    .usage "Error: Missing required arguments."
  else
    match argv with
    | [] => .usage "Error: Missing required arguments."
    | query :: rest =>
        match searchArgLoop rest "auto" false [] with
        | .error () => .helpText
        | .ok (mode, ic, ds) =>
            if ds.isEmpty then
              .usage "Error: At least one data source is required. Run datasources.py to see available sources."
            else
              .request (searchRequest query ds mode ic)

/-! The explore workflows (`explore.py`).

Each of the five workflows issues exactly one `client.search` call; the
query string it synthesizes, the search mode and the `include_content` flag
are fixed per workflow.  `exploreSearchCall` records the arguments of that
call, transcribed from `explore_understand`, `explore_dependency`,
`explore_pattern`, `explore_implement` and `explore_debug`. -/

/-- The five explore workflow modes. -/
inductive ExploreMode where
  | understand | dependency | pattern | implement | debug

/-- The function `parse_query` from `explore.py`: strip a recognized `mode:` lead
(matched case-insensitively, in the fixed order of the `modes` list) and
trim the remainder; unrecognized queries default to `understand`. -/
def parse_query (query : String) : ExploreMode × String :=
  let lower := query.data.map Char.toLower
  if startsWithL "understand:".data lower then (.understand, pyStrip (query.drop 11))
  else if startsWithL "dependency:".data lower then (.dependency, pyStrip (query.drop 11))
  else if startsWithL "pattern:".data lower then (.pattern, pyStrip (query.drop 8))
  else if startsWithL "implement:".data lower then (.implement, pyStrip (query.drop 10))
  else if startsWithL "debug:".data lower then (.debug, pyStrip (query.drop 6))
  else (.understand, query)

/-- Arguments of the single `client.search` call of one workflow. -/
structure SearchCall where
  query : String
  mode : String
  include_content : Bool

/-- The search call each explore workflow issues for the (already
mode-stripped) query. -/
def exploreSearchCall (m : ExploreMode) (q : String) : SearchCall :=
  match m with
  | .understand =>
      { query := q, mode := "auto", include_content := false }
  | .dependency =>
      { query := "How is " ++ q ++ " used? Show me import statements and usage examples"
        mode := "auto", include_content := true }
  | .pattern =>
      { query := "Show me different implementations of " ++ q
        mode := "deep", include_content := true }
  | .implement =>
      { query := "Similar features to " ++ q ++ ", existing implementations"
        mode := "auto", include_content := false }
  | .debug =>
      { query := "Code related to " ++ q
        mode := "auto", include_content := true }

/-! Claims. -/

/-- Bind on a successful `Except` computation (proof helper). -/
theorem ok_bind {α β : Type} (a : α) (f : α → Except String β) :
    (Except.ok a : Except String α) >>= f = f a := rfl

/-- Bind on a failed `Except` computation (proof helper). -/
theorem error_bind {α β : Type} (e : String) (f : α → Except String β) :
    (Except.error e : Except String α) >>= f = Except.error e := rfl

/-- C1: for every invocation of chat where `conversation_id` is absent and
`data_sources` is absent or an empty list, chat fails with the
`ValueError` (InvalidArgument-class) precondition error and no network
request is issued: the `transport` function is never applied, whatever it
is. -/
theorem chat_without_target_fails_before_request
    (q : String) (ds : Option (List String)) (transport : HttpRequest → Json)
    (h : ds = none ∨ ds = some []) :
    chat q ds none transport =
      .error "ValueError: Either conversation_id or data_sources must be provided" := by
  rcases h with h | h <;> subst h <;> rfl

/-- Witness for C1 at a concrete input. -/
theorem chat_without_target_fails_before_request_witness :
    chat "hi" (some []) none (fun _ => Json.null) =
      .error "ValueError: Either conversation_id or data_sources must be provided" :=
  chat_without_target_fails_before_request "hi" (some []) (fun _ => Json.null) (Or.inr rfl)

/-- C2, counterexample: `conversation_id` supplied as the empty string is
falsy in Python, so `chat` falls through to the `data_sources` branch — the
outgoing body carries `names` and no `conversationId`, contrary to the
claim that every supplied `conversation_id` takes precedence. -/
theorem chat_empty_conversation_id_uses_names :
    chatRequest "q" (some ["repo"]) (some "") =
      .ok { method := "POST", endpoint := "/api/chat/completions", query := [],
            body := some [("messages", Json.arr [Json.obj [("role", Json.str "user"),
                            ("content", Json.str "q")]]),
                          ("stream", Json.bool false),
                          ("names", Json.arr [Json.str "repo"])] } := rfl

/-- C2, amended: when a non-empty `conversation_id` is supplied together
with any `data_sources`, the outgoing body contains `conversationId` bound
to the given id and omits `names` — `data_sources` is ignored and the named
conversation is continued. -/
theorem chat_nonempty_conversation_id_wins
    (q cid : String) (ds : Option (List String)) (h : cid ≠ "") :
    ∃ b, chatRequest q ds (some cid) =
        .ok { method := "POST", endpoint := "/api/chat/completions",
              query := [], body := some b } ∧
      lookup b "conversationId" = some (Json.str cid) ∧
      lookup b "names" = none := by
  have hc : pyTruthyStrOpt (some cid) = true := by
    simp [pyTruthyStrOpt, h]
  refine ⟨[("messages", Json.arr [Json.obj [("role", Json.str "user"),
            ("content", Json.str q)]]),
          ("stream", Json.bool false),
          ("conversationId", Json.str cid)], ?_, rfl, rfl⟩
  unfold chatRequest
  rw [hc]
  rfl

/-- Witness for C2's amended claim at a concrete input. -/
theorem chat_nonempty_conversation_id_wins_witness :
    ∃ b, chatRequest "q" (some ["repo"]) (some "abc") =
        .ok { method := "POST", endpoint := "/api/chat/completions",
              query := [], body := some b } ∧
      lookup b "conversationId" = some (Json.str "abc") ∧
      lookup b "names" = none :=
  chat_nonempty_conversation_id_wins "q" "abc" (some ["repo"]) (by decide)

/-- C4: on the response `{"choices": [{"message": {"content": "X"}}],
"id": "abc"}`, `chat` returns answer `"X"` (the first choice's message
content) and conversation id `"abc"` (the response's `id`). -/
theorem chat_extracts_answer_and_conversation_id :
    chatExtract (Json.obj [("choices", Json.arr [Json.obj [("message",
        Json.obj [("content", Json.str "X")])]]), ("id", Json.str "abc")]) =
      .ok { answer := Json.str "X", conversation_id := Json.str "abc",
            full_response := Json.obj [("choices", Json.arr [Json.obj [("message",
              Json.obj [("content", Json.str "X")])]]), ("id", Json.str "abc")] } := rfl

/-- C5, counterexample: a response whose `choices` key is present but bound
to an empty list raises `IndexError` (`response.get("choices", [{}])[0]`
only defaults when the key is absent), so chat does *not* tolerate every
unexpected response shape. -/
theorem chat_empty_choices_list_raises :
    chatExtract (Json.obj [("choices", Json.arr [])]) = .error "IndexError" := rfl

/-- C5, amended: for every response object in which the `choices` key is
absent, chat does not raise and degrades the answer to the empty string
(with the conversation id taken from `id`, defaulting to `None`). -/
theorem chat_missing_choices_defaults_to_empty_answer
    (kvs : List (String × Json)) (h : lookup kvs "choices" = none) :
    chatExtract (Json.obj kvs) =
      .ok { answer := Json.str "",
            conversation_id := dictGet kvs "id" Json.null,
            full_response := Json.obj kvs } := by
  have hc : dictGet kvs "choices" (Json.arr [Json.obj []]) = Json.arr [Json.obj []] := by
    unfold dictGet
    rw [h]
  unfold chatExtract
  simp only [pyGet, hc]
  rfl

/-- Witness for C5's amended claim at a concrete input. -/
theorem chat_missing_choices_defaults_to_empty_answer_witness :
    chatExtract (Json.obj [("id", Json.str "z")]) =
      .ok { answer := Json.str "",
            conversation_id := dictGet [("id", Json.str "z")] "id" Json.null,
            full_response := Json.obj [("id", Json.str "z")] } :=
  chat_missing_choices_defaults_to_empty_answer [("id", Json.str "z")] rfl

/-- C8: the formatter renders a bare result list and the same list wrapped
in a `results` envelope identically, for every sequence of logical result
items (and every `include_content` flag). -/
theorem format_list_and_envelope_agree (items : List Json) (ic : Bool) :
    format_search_results (Json.arr items) ic =
      format_search_results (Json.obj [("results", Json.arr items)]) ic := by
  cases items <;> rfl

/-- C9, counterexample: the dependency workflow's single search call
requests full content (`include_content=True` in `explore_dependency`),
contrary to the claim that only pattern and debug request content. -/
theorem explore_dependency_requests_content :
    (exploreSearchCall ExploreMode.dependency "x").include_content = true := rfl

/-- C9, amended: pattern and debug request full content (pattern in deep
mode, debug in auto mode), dependency also requests full content in auto
mode, and understand and implement use auto mode without content. -/
theorem explore_search_flags (q : String) :
    (exploreSearchCall .understand q).mode = "auto" ∧
    (exploreSearchCall .understand q).include_content = false ∧
    (exploreSearchCall .implement q).mode = "auto" ∧
    (exploreSearchCall .implement q).include_content = false ∧
    (exploreSearchCall .dependency q).mode = "auto" ∧
    (exploreSearchCall .dependency q).include_content = true ∧
    (exploreSearchCall .debug q).mode = "auto" ∧
    (exploreSearchCall .debug q).include_content = true ∧
    (exploreSearchCall .pattern q).mode = "deep" ∧
    (exploreSearchCall .pattern q).include_content = true :=
  ⟨rfl, rfl, rfl, rfl, rfl, rfl, rfl, rfl, rfl, rfl⟩

/-- C3, counterexample: the search domain operation
(`CodeAliveClient.search`) performs no validation — invoked with an empty
`data_sources` list it does not fail but builds and issues the GET
/api/search request, with the `Names` parameter simply absent from the
query string. -/
theorem search_empty_data_sources_still_builds_request :
    searchRequest "q" [] "auto" false =
      { method := "GET", endpoint := "/api/search",
        query := [("Query", "q"), ("Mode", "auto"), ("IncludeContent", "false")],
        body := none } := rfl

/-- C3, amended: the empty-list guard lives in the `search.py` CLI, not in
the domain operation — whenever the CLI reaches the point of issuing a
request, the parsed data-source list was non-empty and the request carries
at least one `Names` query pair. -/
theorem search_cli_request_has_names
    (argv : List String) (r : HttpRequest)
    (h : searchCliPlan argv = CliOutcome.request r) :
    ∃ v, ("Names", v) ∈ r.query := by
  cases argv with
  | nil => exact absurd h (by simp [searchCliPlan])
  | cons query rest =>
      by_cases hlen : (query :: rest).length < 2
      · unfold searchCliPlan at h
        rw [if_pos hlen] at h
        exact absurd h (by simp)
      · cases hsa : searchArgLoop rest "auto" false [] with
        | error u =>
            unfold searchCliPlan at h
            rw [if_neg hlen] at h
            simp only [hsa] at h
            exact absurd h (by simp)
        | ok triple =>
            obtain ⟨mode, ic, ds⟩ := triple
            unfold searchCliPlan at h
            rw [if_neg hlen] at h
            simp only [hsa] at h
            cases ds with
            | nil => simp at h
            | cons d rest2 =>
                simp only [List.isEmpty_cons, Bool.false_eq_true, if_false,
                  CliOutcome.request.injEq] at h
                subst h
                refine ⟨d, ?_⟩
                simp [searchRequest, urlencodeDoseq, pyStr]

/-- Witness for C3's amended claim at a concrete command line. -/
theorem search_cli_request_has_names_witness :
    ∃ v, ("Names", v) ∈ (searchRequest "q" ["repo"] "auto" false).query :=
  search_cli_request_has_names ["q", "repo"] (searchRequest "q" ["repo"] "auto" false) rfl

/-- C6: credential resolution returns the first non-empty value in the
fixed order (explicit argument, `CODEALIVE_API_KEY`, OS credential store),
with no merging, failing with the `ValueError` (CredentialNotFound-class)
message when no source yields a non-empty string — the resolver is a pure
lookup, so no network call is involved; and every exception of the
OS-store lookup (tool absent, timeout, Windows API failure) is swallowed
and treated as not-found. -/
theorem credential_resolution_first_nonempty :
    (∀ (sp : String) (ex env : Option String) (w : KeychainWorld),
      resolveApiKey sp ex env w =
        match firstNonEmpty [ex, env, getKeyFromKeychain w] with
        | some k => .ok k
        | none => .error ("ValueError: " ++ credNotFoundMsg sp)) ∧
    (∀ p : Platform,
      getKeyFromKeychain
        { platform := p, subprocess := .raised, windowsCred := .error () } = none) := by
  constructor
  · intro sp ex env w
    rcases ex with _ | s
    · rcases env with _ | t
      · rcases hk : getKeyFromKeychain w with _ | u
        · simp [resolveApiKey, pyOrOptStr, firstNonEmpty, hk]
        · by_cases hu : u = "" <;>
            simp [resolveApiKey, pyOrOptStr, firstNonEmpty, hk, hu]
      · by_cases ht : t = "" <;>
          rcases hk : getKeyFromKeychain w with _ | u
        · simp [resolveApiKey, pyOrOptStr, firstNonEmpty, hk, ht]
        · by_cases hu : u = "" <;>
            simp [resolveApiKey, pyOrOptStr, firstNonEmpty, hk, ht, hu]
        · simp [resolveApiKey, pyOrOptStr, firstNonEmpty, hk, ht]
        · simp [resolveApiKey, pyOrOptStr, firstNonEmpty, hk, ht]
    · by_cases hs : s = "" <;> rcases env with _ | t
      · rcases hk : getKeyFromKeychain w with _ | u
        · simp [resolveApiKey, pyOrOptStr, firstNonEmpty, hk, hs]
        · by_cases hu : u = "" <;>
            simp [resolveApiKey, pyOrOptStr, firstNonEmpty, hk, hs, hu]
      · by_cases ht : t = "" <;> rcases hk : getKeyFromKeychain w with _ | u
        · simp [resolveApiKey, pyOrOptStr, firstNonEmpty, hk, hs, ht]
        · by_cases hu : u = "" <;>
            simp [resolveApiKey, pyOrOptStr, firstNonEmpty, hk, hs, ht, hu]
        · simp [resolveApiKey, pyOrOptStr, firstNonEmpty, hk, hs, ht]
        · simp [resolveApiKey, pyOrOptStr, firstNonEmpty, hk, hs, ht]
      · simp [resolveApiKey, pyOrOptStr, firstNonEmpty, hs]
      · simp [resolveApiKey, pyOrOptStr, firstNonEmpty, hs]
  · intro p
    cases p <;> rfl

/-- C7, counterexample: a 401 response whose body parses to a JSON value
that is not an object (here the JSON list `[]`) makes the handler's
`error_data.get(...)` raise `AttributeError`, which the
`except json.JSONDecodeError` clause does not catch — the user sees that
exception instead of an authentication message containing "401" and the
settings path. -/
theorem http401_list_body_raises_attribute_error :
    httpErrorMessage "https://app.codealive.ai" 401 "[]" (some (Json.arr [])) =
      .error "AttributeError" := rfl

/-- C7, amended: for every 401 response whose `error_msg` resolution
produces a string `s` (the body is not valid JSON, or is a JSON object
whose `message`/`error` resolution yields a string or falls back to the raw
body), the raised message is the authentication-failed text — it contains
"401" and the configured base URL's settings path, and it includes the
server-supplied message `s` exactly when `s` is non-blank. -/
theorem http401_message_actionable
    (base raw : String) (parsed : Option Json) (s : String)
    (h : extractErrorMsg raw parsed = .ok (Json.str s)) :
    ∃ detail,
      httpErrorMessage base 401 raw parsed =
        .ok ("Authentication failed (401)" ++ detail
          ++ ". Your API key may be invalid or expired. Get a new key at: "
          ++ base ++ "/settings/api-keys") ∧
      (pyStrip s ≠ "" → detail = ": " ++ s) ∧
      (pyStrip s = "" → detail = "") := by
  refine ⟨if pyStrip s != "" then ": " ++ s else "", ?_, ?_, ?_⟩
  · unfold httpErrorMessage
    rw [h]
    rfl
  · intro hne
    simp [hne]
  · intro he
    simp [he]

/-- Witness for C7's amended claim at a concrete 401 response. -/
theorem http401_message_actionable_witness :
    ∃ detail,
      httpErrorMessage "https://app.codealive.ai" 401 "bad key" none =
        .ok ("Authentication failed (401)" ++ detail
          ++ ". Your API key may be invalid or expired. Get a new key at: "
          ++ "https://app.codealive.ai" ++ "/settings/api-keys") ∧
      (pyStrip "bad key" ≠ "" → detail = ": " ++ "bad key") ∧
      (pyStrip "bad key" = "" → detail = "") :=
  http401_message_actionable "https://app.codealive.ai" "bad key" none "bad key" rfl

/-- C10, counterexample: the empty mapping has no `results` key, yet the
formatter's falsy-input early return reports "No results found." instead of
rendering it as a single result item with count 1. -/
theorem format_empty_mapping_reports_no_results :
    format_search_results (Json.obj []) false = .ok "No results found." := rfl

/-- C10, amended: for every *non-empty* mapping without a `results` key on
which formatting succeeds, the formatter treats the whole mapping as the
single result item: the output is exactly the item's result block (rendered
at index 1) followed by the count line "(1 results)". -/
theorem format_plain_mapping_single_block
    (kvs : List (String × Json)) (ic : Bool) (s : String)
    (hne : kvs ≠ [])
    (hres : lookup kvs "results" = none)
    (h : format_search_results (Json.obj kvs) ic = .ok s) :
    ∃ bs, renderResult 1 (Json.obj kvs) = .ok bs ∧
      s = String.intercalate "\n" (bs ++ ["\n(1 results)"]) := by
  have hfind : kvs.find? (fun p => p.1 == "results") = none := by
    unfold lookup at hres
    exact Option.map_eq_none'.mp hres
  have hany : kvs.any (fun p => p.1 == "results") = false := by
    rw [List.any_eq_false]
    intro x hx
    simpa using List.find?_eq_none.mp hfind x hx
  have ht : truthy (Json.obj kvs) = true := by
    cases kvs with
    | nil => exact absurd rfl hne
    | cons a l => rfl
  simp only [format_search_results, extractItems, ht, hany,
    show truthy (Json.arr [Json.obj kvs]) = true from rfl, Bool.not_true,
    Bool.false_eq_true, if_false, ok_bind, pyIter, renderItems,
    List.append_nil] at h
  cases hr : renderResult 1 (Json.obj kvs) with
  | error e =>
      rw [hr] at h
      simp [error_bind] at h
  | ok bs =>
      refine ⟨bs, rfl, ?_⟩
      rw [hr] at h
      simp only [ok_bind, Except.ok.injEq] at h
      rw [← h, show ([Json.obj kvs]).length = 1 from rfl]
      rfl

/-- Witness for C10's amended claim at a concrete single-item mapping. -/
theorem format_plain_mapping_single_block_witness :
    ∃ bs, renderResult 1 (Json.obj [("kind", Json.str "Function"),
        ("path", Json.str "a.py")]) = .ok bs ∧
      "\n--- Result #1 [Function] ---\n  File: a.py\n\n(1 results)" =
        String.intercalate "\n" (bs ++ ["\n(1 results)"]) :=
  format_plain_mapping_single_block
    [("kind", Json.str "Function"), ("path", Json.str "a.py")] false
    "\n--- Result #1 [Function] ---\n  File: a.py\n\n(1 results)"
    (by simp) rfl rfl

end CodeAlive
